import Mathlib

/-!
Shallow embedding of the bitrise artefact-download step (src/main.go).

The program is a small synchronous CLI: it reads configuration from
environment variables, lists the artifacts of a build through the Bitrise
REST API, resolves a display name to a slug, fetches the artifact detail to
obtain a pre-signed download URL, downloads the bytes and writes them to a
file.  Effectful stdlib calls (network, JSON decoding, filesystem) are
modelled as components of a `World`; every embedded function additionally
returns the list of observable `Event`s it performs, in order.
-/

namespace BitriseArtefactDownload

/-- Source: `const domain = "https://api.bitrise.io"`. -/
def domain : String := "https://api.bitrise.io"

/-- Source: `const apiVersion = "v0.1"`. -/
def apiVersion : String := "v0.1"

/-- One entry of the artifact listing (`Artifacts.Data` element in main.go). -/
structure ArtifactSummary where
  artifactType : String
  isPublicPageEnabled : Bool
  slug : String
  title : String
deriving DecidableEq, Repr

/-- Pagination metadata (`Artifacts.Paging` in main.go). -/
structure Paging where
  pageItemLimit : Int
  totalItemCount : Int
deriving DecidableEq, Repr

/-- The decoded listing response (`Artifacts` in main.go). -/
structure Artifacts where
  data : List ArtifactSummary
  paging : Paging
deriving DecidableEq, Repr

/-- The payload of the artifact detail response (`Artifact.Data` in main.go). -/
structure ArtifactData where
  artifactType : String
  expiringDownloadURL : String
  isPublicPageEnabled : Bool
  publicInstallPageURL : String
  slug : String
  title : String
deriving DecidableEq, Repr

/-- The decoded artifact detail response (`Artifact` in main.go). -/
structure Artifact where
  data : ArtifactData
deriving DecidableEq, Repr

/-- An HTTP request as built by the program: method, full URL, headers. -/
structure HttpRequest where
  method : String
  url : String
  headers : List (String × String)
deriving DecidableEq, Repr

/-- An HTTP response: status code and raw body (bytes modelled as a String). -/
structure HttpResponse where
  statusCode : Int
  body : String
deriving DecidableEq, Repr

/-- The configuration of Go's `http.Client` that the program sets: the
transport timeout (in seconds). -/
structure HttpClientCfg where
  timeoutSeconds : Nat
deriving DecidableEq, Repr

/-- `Client` of main.go: auth token plus the configured `http.Client`. -/
structure Client where
  authToken : String
  httpClient : HttpClientCfg
deriving DecidableEq, Repr

/-- The open response body stream returned by `DownloadArtifact`:
the request that produced it (identifying the body) and its content. -/
structure DownloadStream where
  sourceReq : HttpRequest
  content : String
deriving DecidableEq, Repr

/-- Observable effects of a run, in program order. -/
inductive Event where
  | netCall (req : HttpRequest)
  | bodyOpen (req : HttpRequest)
  | bodyClose (req : HttpRequest)
  | decodeListing
  | decodeDetail
  | mkdir (dir : String)
  | fileCreate (path : String)
  | fileWrite (path : String) (content : String)
  | stdout (s : String)
deriving DecidableEq, Repr

deriving instance DecidableEq for Except

/-- The ambient world: environment variables, the network, the stdlib JSON
decoders (abstract: a body either decodes to a value or yields an error) and
the outcomes of filesystem calls (`none` means success). -/
structure World where
  env : String → String
  net : HttpRequest → Except String HttpResponse
  decodeArtifacts : String → Except String Artifacts
  decodeArtifact : String → Except String Artifact
  mkdirErr : String → Option String
  createErr : String → Option String
  copyErr : String → String → Option String

/-- `New` of main.go: builds a client with a 20-second transport timeout. -/
def New (authToken : String) : Client :=
  ⟨authToken, ⟨20⟩⟩

/-- The request `Client.get` builds: GET on domain/apiVersion/endpoint with
the `Authorization: token <tok>` header (main.go lines 57-63). -/
def Client.mkRequest (c : Client) (endpoint : String) : HttpRequest :=
  ⟨"GET", domain ++ "/" ++ apiVersion ++ "/" ++ endpoint,
    [("Authorization", "token " ++ c.authToken)]⟩

/-- `Client.get` of main.go: build the request, perform it; on success the
response body is an open resource (`bodyOpen`). -/
def Client.get (w : World) (c : Client) (endpoint : String) :
    Except String HttpResponse × List Event :=
  let req := c.mkRequest endpoint
  match w.net req with
  | .error e => (.error e, [.netCall req])
  | .ok resp => (.ok resp, [.netCall req, .bodyOpen req])

/-- `responseBodyCloser` of main.go, as the event it performs. -/
def responseBodyCloser (req : HttpRequest) : Event :=
  Event.bodyClose req

/-- Listing endpoint path: `apps/%s/builds/%s/artifacts`. -/
def listingPath (appSlug buildSlug : String) : String :=
  "apps/" ++ appSlug ++ "/builds/" ++ buildSlug ++ "/artifacts"

/-- Detail endpoint path: `apps/%s/builds/%s/artifacts/%s`. -/
def detailPath (appSlug buildSlug artifactSlug : String) : String :=
  "apps/" ++ appSlug ++ "/builds/" ++ buildSlug ++ "/artifacts/" ++ artifactSlug

/-- Error message of main.go line 80.  The format string labels the slugs
`build_slug` then `app_slug`, but the source passes `appSlug` first, so the
first slot receives the app slug; the embedding reproduces the source. -/
def listingErrMsg (code : Int) (appSlug buildSlug : String) : String :=
  "failed to get artifacts with status code (" ++ toString code ++
    ") for [build_slug: " ++ appSlug ++ ", app_slug: " ++ buildSlug ++ "]"

/-- Error message of main.go line 99 (same argument order as the source). -/
def detailErrMsg (code : Int) (appSlug buildSlug : String) : String :=
  "failed to get artifact details with status code (" ++ toString code ++
    ") for [build_slug: " ++ appSlug ++ ", app_slug: " ++ buildSlug ++ "]"

/-- `GetArtifactsForBuild` of main.go: GET the listing endpoint, fail on a
status outside [200,300) before decoding, otherwise decode the body.  The
deferred `responseBodyCloser` closes the body on every exit path after a
successful request. -/
def GetArtifactsForBuild (w : World) (c : Client) (appSlug buildSlug : String) :
    Except String Artifacts × List Event :=
  let requestPath := listingPath appSlug buildSlug
  let req := c.mkRequest requestPath
  match Client.get w c requestPath with
  | (.error e, tr) => (.error e, tr)
  | (.ok resp, tr) =>
    if 300 ≤ resp.statusCode ∨ resp.statusCode < 200 then
      (.error (listingErrMsg resp.statusCode appSlug buildSlug),
        tr ++ [responseBodyCloser req])
    else
      match w.decodeArtifacts resp.body with
      | .ok art => (.ok art, tr ++ [.decodeListing, responseBodyCloser req])
      | .error e => (.error e, tr ++ [.decodeListing, responseBodyCloser req])

/-- `GetArtifactDetails` of main.go: same discipline, detail endpoint. -/
def GetArtifactDetails (w : World) (c : Client)
    (appSlug buildSlug artifactSlug : String) :
    Except String Artifact × List Event :=
  let requestPath := detailPath appSlug buildSlug artifactSlug
  let req := c.mkRequest requestPath
  match Client.get w c requestPath with
  | (.error e, tr) => (.error e, tr)
  | (.ok resp, tr) =>
    if 300 ≤ resp.statusCode ∨ resp.statusCode < 200 then
      (.error (detailErrMsg resp.statusCode appSlug buildSlug),
        tr ++ [responseBodyCloser req])
    else
      match w.decodeArtifact resp.body with
      | .ok art => (.ok art, tr ++ [.decodeDetail, responseBodyCloser req])
      | .error e => (.error e, tr ++ [.decodeDetail, responseBodyCloser req])

/-- The unauthenticated request `http.Get(url)` issues: no headers. -/
def dlRequest (url : String) : HttpRequest :=
  ⟨"GET", url, []⟩

/-- `DownloadArtifact` of main.go: fetch the detail, then GET the expiring
download URL without the Authorization header and return the open body. -/
def DownloadArtifact (w : World) (c : Client)
    (appSlug buildSlug artifactSlug : String) :
    Except String DownloadStream × List Event :=
  match GetArtifactDetails w c appSlug buildSlug artifactSlug with
  | (.error e, tr) => (.error e, tr)
  | (.ok artifact, tr) =>
    let req := dlRequest artifact.data.expiringDownloadURL
    match w.net req with
    | .error e => (.error e, tr ++ [.netCall req])
    | .ok resp => (.ok ⟨req, resp.body⟩, tr ++ [.netCall req, .bodyOpen req])

/-- `errNoEnv` of main.go. -/
def errNoEnv (env : String) : String :=
  "environment variable (" ++ env ++ ") is not set"

/-- Go `map[string]string` assignment `m[k] = v`, on an association list with
at most one entry per key: the previous binding of `k` (if any) is replaced. -/
def mapInsert (m : List (String × String)) (k v : String) :
    List (String × String) :=
  m.filter (fun p => p.1 ≠ k) ++ [(k, v)]

/-- Go map read `m[k]` (with its presence bit, as `Option`). -/
def mapLookup (m : List (String × String)) (k : String) : Option String :=
  (m.find? (fun p => p.1 = k)).map (fun p => p.2)

/-- The `artifactSlugMap` loop of main.go lines 173-176: insert
`title ↦ slug` for each summary in listing order. -/
def buildSlugMap (l : List ArtifactSummary) : List (String × String) :=
  l.foldl (fun m a => mapInsert m a.title a.slug) []

/-- Byte-wise (here: code-point-wise) comparison on strings; models the key
order used by Go when serializing a `map[string]string`. -/
def strLE (a b : String) : Bool :=
  go a.data b.data
where
  go : List Char → List Char → Bool
  | [], _ => true
  | _ :: _, [] => false
  | x :: xs, y :: ys =>
    if x.toNat < y.toNat then true
    else if y.toNat < x.toNat then false
    else go xs ys

/-- Insert a pair into a key-sorted list of pairs. -/
def insertSorted (p : String × String) :
    List (String × String) → List (String × String)
  | [] => [p]
  | q :: qs => if strLE p.1 q.1 then p :: q :: qs else q :: insertSorted p qs

/-- Sort map entries by key, as `encoding/json` does for map keys. -/
def sortPairs : List (String × String) → List (String × String)
  | [] => []
  | p :: ps => insertSorted p (sortPairs ps)

/-- One hexadecimal digit (lower case), for JSON `\u00XX` escapes. -/
def hexDigit (n : Nat) : Char :=
  if n < 10 then Char.ofNat (48 + n) else Char.ofNat (87 + n)

/-- JSON escaping of one character as `encoding/json` performs it (with its
default HTML escaping of `<`, `>`, `&`). -/
def escapeChar (c : Char) : String :=
  if c = Char.ofNat 34 then "\\\""
  else if c = Char.ofNat 92 then "\\\\"
  else if c = Char.ofNat 10 then "\\n"
  else if c = Char.ofNat 13 then "\\r"
  else if c = Char.ofNat 9 then "\\t"
  else if c = Char.ofNat 60 then "\\u003c"
  else if c = Char.ofNat 62 then "\\u003e"
  else if c = Char.ofNat 38 then "\\u0026"
  else if c.toNat < 32 then
    String.mk [Char.ofNat 92, Char.ofNat 117, Char.ofNat 48, Char.ofNat 48,
      hexDigit (c.toNat / 16), hexDigit (c.toNat % 16)]
  else String.singleton c

/-- JSON escaping of a string. -/
def escapeJSON (s : String) : String :=
  s.foldl (fun acc c => acc ++ escapeChar c) ""

/-- One `"key": "value"` element of the serialized map. -/
def renderPair (p : String × String) : String :=
  "\"" ++ escapeJSON p.1 ++ "\": \"" ++ escapeJSON p.2 ++ "\""

/-- Join serialized lines with `,\n`, as `MarshalIndent` does. -/
def joinLines : List String → String
  | [] => ""
  | [x] => x
  | x :: y :: xs => x ++ ",\n" ++ joinLines (y :: xs)

/-- `json.MarshalIndent(m, "", "  ")` on a `map[string]string`: keys sorted,
one indented `"key": "value"` line per entry.  On a map of strings it cannot
fail, so it is a total function. -/
def marshalIndentMap (m : List (String × String)) : String :=
  match sortPairs m with
  | [] => "\x7b\x7d"
  | p :: ps =>
    "\x7b\n" ++ joinLines ((p :: ps).map (fun q => "  " ++ renderPair q)) ++
      "\n\x7d"

/-- The not-found error of main.go line 184. -/
def notFoundMsg (artifactName : String) (m : List (String × String)) : String :=
  "unable to find artifact with name (" ++ artifactName ++
    "), available artifacts:\n" ++ marshalIndentMap m

/-- Models Go `filepath.Join(dir, name)` for a clean `dir` and a plain file
`name`: joining with "." (or "") yields `name`, otherwise `dir ++ "/" ++ name`. -/
def joinPath (dir name : String) : String :=
  if dir = "." ∨ dir = "" then name else dir ++ "/" ++ name

/-- The download directory: `DOWNLOAD_DIR`, defaulting to ".". -/
def downloadDirOf (w : World) : String :=
  if w.env "DOWNLOAD_DIR" = "" then "." else w.env "DOWNLOAD_DIR"

/-- The success report printed by main.go line 201. -/
def doneMsg (n : Nat) : String :=
  "done, [" ++ toString n ++ " byte] downloaded\n"

/-- The four required environment variables, in the order main.go checks
them. -/
def requiredEnvVars : List String :=
  ["API_AUTH_TOKEN", "APP_SLUG", "WORKFLOW_SLUG_ID", "ARTIFACT_NAME"]

/-- `mainE` of main.go: the whole orchestration.  `io.Copy` is modelled by
its contract: on success it writes the entire stream content and returns its
length; `w.copyErr` decides failure. -/
def mainE (w : World) : Except String Unit × List Event :=
  let accessToken := w.env "API_AUTH_TOKEN"
  if accessToken = "" then (.error (errNoEnv "API_AUTH_TOKEN"), []) else
  let appSlug := w.env "APP_SLUG"
  if appSlug = "" then (.error (errNoEnv "APP_SLUG"), []) else
  let buildSlug := w.env "WORKFLOW_SLUG_ID"
  if buildSlug = "" then (.error (errNoEnv "WORKFLOW_SLUG_ID"), []) else
  let artifactName := w.env "ARTIFACT_NAME"
  if artifactName = "" then (.error (errNoEnv "ARTIFACT_NAME"), []) else
  let downloadDir := downloadDirOf w
  match w.mkdirErr downloadDir with
  | some e => (.error e, [.mkdir downloadDir])
  | none =>
    let c := New accessToken
    match GetArtifactsForBuild w c appSlug buildSlug with
    | (.error e, tr) => (.error e, .mkdir downloadDir :: tr)
    | (.ok artifacts, tr1) =>
      let artifactSlugMap := buildSlugMap artifacts.data
      match mapLookup artifactSlugMap artifactName with
      | none =>
        (.error (notFoundMsg artifactName artifactSlugMap),
          .mkdir downloadDir :: tr1)
      | some artifactSlug =>
        match DownloadArtifact w c appSlug buildSlug artifactSlug with
        | (.error e, tr2) => (.error e, .mkdir downloadDir :: (tr1 ++ tr2))
        | (.ok reader, tr2) =>
          let path := joinPath downloadDir artifactName
          match w.createErr path with
          | some e =>
            (.error e, .mkdir downloadDir :: (tr1 ++ tr2 ++ [.fileCreate path]))
          | none =>
            match w.copyErr path reader.content with
            | some e =>
              (.error e,
                .mkdir downloadDir :: (tr1 ++ tr2 ++ [.fileCreate path]))
            | none =>
              (.ok (),
                .mkdir downloadDir ::
                  (tr1 ++ tr2 ++
                    [.fileCreate path, .fileWrite path reader.content,
                      .stdout (doneMsg reader.content.length)]))

/-- `main` of main.go: run `mainE`; on error print `Error: <err>` to stdout
and exit 1, otherwise exit 0. -/
def mainRun (w : World) : Nat × List Event :=
  match mainE w with
  | (.error e, tr) => (1, tr ++ [.stdout ("Error: " ++ e ++ "\n")])
  | (.ok _, tr) => (0, tr)

/-! Concrete sample data and worlds used by the witnesses. -/

/-- A listing entry titled `app.apk` with slug `slug1`. -/
def artA : ArtifactSummary := ⟨"android-apk", true, "slug1", "app.apk"⟩

/-- A listing entry titled `mapping.txt` with slug `slug2`. -/
def artB : ArtifactSummary := ⟨"file", false, "slug2", "mapping.txt"⟩

/-- A second listing entry titled `app.apk`, with slug `slug3`. -/
def artA2 : ArtifactSummary := ⟨"android-apk", true, "slug3", "app.apk"⟩

/-- A sample listing with a duplicated title (`app.apk`). -/
def sampleListing : Artifacts := ⟨[artA, artB, artA2], ⟨10, 3⟩⟩

/-- A sample artifact detail carrying a pre-signed download URL. -/
def sampleDetail : Artifact :=
  ⟨⟨"android-apk", "https://signed.example/dl", true, "", "slug3", "app.apk"⟩⟩

/-- A fully populated environment. -/
def envOk : String → String := fun v =>
  if v = "API_AUTH_TOKEN" then "tok123"
  else if v = "APP_SLUG" then "app1"
  else if v = "WORKFLOW_SLUG_ID" then "bld1"
  else if v = "ARTIFACT_NAME" then "app.apk"
  else if v = "DOWNLOAD_DIR" then "out"
  else ""

/-- A world in which every step succeeds: all requests return 200 with body
`body`, decoders return the sample values, the filesystem never fails. -/
def wOk : World :=
  ⟨envOk, fun _ => .ok ⟨200, "body"⟩, fun _ => .ok sampleListing,
    fun _ => .ok sampleDetail, fun _ => none, fun _ => none, fun _ _ => none⟩

/-- Like `wOk` but every request is answered with a 404 and an empty body. -/
def wBad : World :=
  ⟨envOk, fun _ => .ok ⟨404, ""⟩, fun _ => .ok sampleListing,
    fun _ => .ok sampleDetail, fun _ => none, fun _ => none, fun _ _ => none⟩

/-- Like `wOk` but the configured artifact name is absent from the listing. -/
def wMiss : World :=
  ⟨fun v => if v = "ARTIFACT_NAME" then "missing.ipa" else envOk v,
    fun _ => .ok ⟨200, "body"⟩, fun _ => .ok sampleListing,
    fun _ => .ok sampleDetail, fun _ => none, fun _ => none, fun _ _ => none⟩

/-- A world with an entirely empty environment and a dead network. -/
def wEmptyEnv : World :=
  ⟨fun _ => "", fun _ => .error "network unreachable", fun _ => .error "eof",
    fun _ => .error "eof", fun _ => none, fun _ => none, fun _ _ => none⟩

/-- The listing request issued under `envOk`. -/
def reqListingOk : HttpRequest :=
  Client.mkRequest (New "tok123") (listingPath "app1" "bld1")

/-- The detail request issued for slug `slug3` under `envOk`. -/
def reqDetailOk : HttpRequest :=
  Client.mkRequest (New "tok123") (detailPath "app1" "bld1" "slug3")

/-- The unauthenticated download request of the sample detail URL. -/
def reqDlOk : HttpRequest := dlRequest "https://signed.example/dl"

/-- Like `wOk` but only the artifact detail request is answered 404; every
other request (in particular the listing) succeeds with 200. -/
def wDetailBad : World :=
  ⟨envOk,
    fun req => if req = reqDetailOk then .ok ⟨404, ""⟩ else .ok ⟨200, "body"⟩,
    fun _ => .ok sampleListing, fun _ => .ok sampleDetail,
    fun _ => none, fun _ => none, fun _ _ => none⟩

/-! Lemmas about the title-to-slug map. -/

/-- Searching the entries that survived deleting key `k` for key `k` itself
finds nothing. -/
theorem find?_and_self_not (m : List (String × String)) (k : String) :
    List.find? (fun a => !decide (a.1 = k) && decide (a.1 = k)) m = none := by
  induction m with
  | nil => rfl
  | cons p t ih => by_cases hp : p.1 = k <;> simp [List.find?_cons, hp, ih]

/-- Searching the entries that survived deleting key `k` for a different key
is searching the original entries. -/
theorem find?_and_ne (m : List (String × String)) (k k' : String)
    (h : k' ≠ k) :
    List.find? (fun a => !decide (a.1 = k) && decide (a.1 = k')) m =
      List.find? (fun p => decide (p.1 = k')) m := by
  induction m with
  | nil => rfl
  | cons p t ih =>
    by_cases hp : p.1 = k'
    · have hq : ¬ p.1 = k := by rw [hp]; exact h
      simp [List.find?_cons, hp, hq, h]
    · simp [List.find?_cons, hp, ih]

/-- Reading a Go map after an insert: the inserted key yields the new value,
any other key is unaffected. -/
theorem mapLookup_mapInsert (m : List (String × String)) (k v k' : String) :
    mapLookup (mapInsert m k v) k' =
      if k' = k then some v else mapLookup m k' := by
  by_cases h : k' = k
  · subst h
    simp [mapInsert, mapLookup, find?_and_self_not]
  · simp [mapInsert, mapLookup, Ne.symm h, h, find?_and_ne m k k' h]

/-- `buildSlugMap` over a listing extended on the right is one insert. -/
theorem buildSlugMap_concat (l : List ArtifactSummary) (a : ArtifactSummary) :
    buildSlugMap (l ++ [a]) = mapInsert (buildSlugMap l) a.title a.slug := by
  simp [buildSlugMap, List.foldl_append]

/-- The map built by the orchestrator maps a title to the slug of the
last-occurring listing entry carrying that title. -/
theorem buildSlugMap_lookup (l : List ArtifactSummary) (t : String) :
    mapLookup (buildSlugMap l) t =
      (l.reverse.find? (fun a => a.title = t)).map (fun a => a.slug) := by
  induction l using List.reverseRecOn with
  | nil => rfl
  | append_singleton l a ih =>
    rw [buildSlugMap_concat, mapLookup_mapInsert]
    by_cases h : t = a.title
    · simp [List.find?_cons, h]
    · simp [List.find?_cons, h, Ne.symm h, ih]

/-- The map built by the orchestrator is defined exactly on the titles
occurring in the listing. -/
theorem buildSlugMap_keys (l : List ArtifactSummary) (t : String) :
    (mapLookup (buildSlugMap l) t).isSome ↔
      t ∈ l.map (fun a => a.title) := by
  rw [buildSlugMap_lookup]
  simp only [Option.isSome_map', List.find?_isSome, List.mem_reverse,
    List.mem_map, decide_eq_true_eq]

/-- C1: for every artifact listing returned by `GetArtifactsForBuild`, the
title-to-slug map built by the orchestrator contains exactly the distinct
titles occurring in the listing, and for each title the associated slug is
that of the last-occurring entry with that title. -/
theorem slug_map_exact_titles_last_wins
    (w : World) (c : Client) (appSlug buildSlug : String)
    (art : Artifacts) (tr : List Event)
    (h : GetArtifactsForBuild w c appSlug buildSlug = (.ok art, tr)) :
    (∀ t, (mapLookup (buildSlugMap art.data) t).isSome ↔
        t ∈ art.data.map (fun a => a.title)) ∧
    (∀ t, mapLookup (buildSlugMap art.data) t =
        (art.data.reverse.find? (fun a => a.title = t)).map (fun a => a.slug)) :=
  ⟨fun t => buildSlugMap_keys art.data t, fun t => buildSlugMap_lookup art.data t⟩

/-- C1 witness: on the sample listing (returned by `GetArtifactsForBuild`
under `wOk`), the duplicated title `app.apk` resolves to the slug of its
last occurrence, `slug3`. -/
theorem slug_map_exact_titles_last_wins_witness :
    mapLookup (buildSlugMap sampleListing.data) "app.apk" = some "slug3" ∧
    "app.apk" ∈ sampleListing.data.map (fun a => a.title) := by
  have h := slug_map_exact_titles_last_wins wOk (New "tok123") "app1" "bld1"
    sampleListing
    [.netCall reqListingOk, .bodyOpen reqListingOk, .decodeListing,
      .bodyClose reqListingOk]
    (by decide)
  refine ⟨(h.2 "app.apk").trans (by decide), ?_⟩
  exact (h.1 "app.apk").mp (by decide)

/-- C4: when a required environment variable is unset, `mainE` returns the
configuration error naming the first missing one (in the order the program
checks them), with an empty event trace: no network call and no filesystem
write happens before the return. -/
theorem missing_env_first_named (w : World) (v : String)
    (h : requiredEnvVars.find? (fun u => w.env u = "") = some v) :
    mainE w = (.error (errNoEnv v), []) := by
  by_cases h1 : w.env "API_AUTH_TOKEN" = ""
  · simp [requiredEnvVars, List.find?_cons, h1] at h
    subst h
    simp [mainE, h1]
  · by_cases h2 : w.env "APP_SLUG" = ""
    · simp [requiredEnvVars, List.find?_cons, h1, h2] at h
      subst h
      simp [mainE, h1, h2]
    · by_cases h3 : w.env "WORKFLOW_SLUG_ID" = ""
      · simp [requiredEnvVars, List.find?_cons, h1, h2, h3] at h
        subst h
        simp [mainE, h1, h2, h3]
      · by_cases h4 : w.env "ARTIFACT_NAME" = ""
        · simp [requiredEnvVars, List.find?_cons, h1, h2, h3, h4] at h
          subst h
          simp [mainE, h1, h2, h3, h4]
        · simp [requiredEnvVars, List.find?_cons, h1, h2, h3, h4] at h

/-- C4 witness: with every variable unset, the run fails naming
API_AUTH_TOKEN and performs no event. -/
theorem missing_env_first_named_witness :
    mainE wEmptyEnv = (.error (errNoEnv "API_AUTH_TOKEN"), []) :=
  missing_env_first_named wEmptyEnv "API_AUTH_TOKEN" (by decide)

/-- C6: every request issued through `Client.get` targets the fixed domain,
the fixed API version segment and the caller-supplied endpoint joined by
`/`, carries the Authorization header holding the bearer token, and the
client built by `New` has a 20-second transport timeout. -/
theorem get_request_url_auth_timeout (w : World) (c : Client)
    (endpoint tok : String) :
    (c.mkRequest endpoint).url =
      domain ++ "/" ++ apiVersion ++ "/" ++ endpoint ∧
    ("Authorization", "token " ++ c.authToken) ∈
      (c.mkRequest endpoint).headers ∧
    (Client.get w c endpoint).2.head? =
      some (.netCall (c.mkRequest endpoint)) ∧
    (New tok).httpClient.timeoutSeconds = 20 := by
  refine ⟨rfl, by simp [Client.mkRequest], ?_, rfl⟩
  rcases hn : w.net (c.mkRequest endpoint) with e | resp <;>
    simp [Client.get, hn]

/-- C10: the Authorization header value built by `Client.get` is exactly
the string `token ` followed by the auth token — in particular its scheme
word is `token`, so it is never of the form `Bearer <anything>`. -/
theorem auth_header_token_scheme (c : Client) (endpoint : String) :
    (c.mkRequest endpoint).headers =
      [("Authorization", "token " ++ c.authToken)] ∧
    (∀ rest : String, "token " ++ c.authToken ≠ "Bearer " ++ rest) := by
  refine ⟨rfl, fun rest hEq => ?_⟩
  have hd := congrArg String.data hEq
  rw [String.data_append, String.data_append] at hd
  have hTok : "token ".data = ['t', 'o', 'k', 'e', 'n', ' '] := rfl
  have hBear : "Bearer ".data = ['B', 'e', 'a', 'r', 'e', 'r', ' '] := rfl
  rw [hTok, hBear] at hd
  simp at hd

/-- C10 witness: for a concrete client the header list holds exactly
`token abc`, and that value differs from a `Bearer `-prefixed one. -/
theorem auth_header_token_scheme_witness :
    (Client.mkRequest ⟨"abc", ⟨20⟩⟩ "apps").headers =
      [("Authorization", "token " ++ "abc")] ∧
    ("token " ++ "abc" : String) ≠ "Bearer " ++ "xyz" :=
  ⟨(auth_header_token_scheme ⟨"abc", ⟨20⟩⟩ "apps").1,
    (auth_header_token_scheme ⟨"abc", ⟨20⟩⟩ "apps").2 "xyz"⟩

/-- C3: whenever the listing request is answered with a status outside
[200,300), `GetArtifactsForBuild` returns the status error (carrying the
status code and the two slugs) and closes the body without emitting a decode
event; independently, the same holds of `GetArtifactDetails` for the detail
request.  Each endpoint is covered on its own, so in particular a run whose
listing succeeds but whose detail request fails is included. -/
theorem non2xx_status_error_no_decode (w : World) (c : Client)
    (a b s : String) :
    (∀ r1 : HttpResponse, w.net (c.mkRequest (listingPath a b)) = .ok r1 →
      300 ≤ r1.statusCode ∨ r1.statusCode < 200 →
      GetArtifactsForBuild w c a b =
        (.error (listingErrMsg r1.statusCode a b),
          [.netCall (c.mkRequest (listingPath a b)),
            .bodyOpen (c.mkRequest (listingPath a b)),
            .bodyClose (c.mkRequest (listingPath a b))]) ∧
      Event.decodeListing ∉ (GetArtifactsForBuild w c a b).2) ∧
    (∀ r2 : HttpResponse, w.net (c.mkRequest (detailPath a b s)) = .ok r2 →
      300 ≤ r2.statusCode ∨ r2.statusCode < 200 →
      GetArtifactDetails w c a b s =
        (.error (detailErrMsg r2.statusCode a b),
          [.netCall (c.mkRequest (detailPath a b s)),
            .bodyOpen (c.mkRequest (detailPath a b s)),
            .bodyClose (c.mkRequest (detailPath a b s))]) ∧
      Event.decodeDetail ∉ (GetArtifactDetails w c a b s).2) := by
  constructor
  · intro r1 h1 hs1
    have hA : GetArtifactsForBuild w c a b =
        (.error (listingErrMsg r1.statusCode a b),
          [.netCall (c.mkRequest (listingPath a b)),
            .bodyOpen (c.mkRequest (listingPath a b)),
            .bodyClose (c.mkRequest (listingPath a b))]) := by
      simp [GetArtifactsForBuild, Client.get, responseBodyCloser, h1, hs1]
    refine ⟨hA, ?_⟩
    rw [hA]
    simp
  · intro r2 h2 hs2
    have hB : GetArtifactDetails w c a b s =
        (.error (detailErrMsg r2.statusCode a b),
          [.netCall (c.mkRequest (detailPath a b s)),
            .bodyOpen (c.mkRequest (detailPath a b s)),
            .bodyClose (c.mkRequest (detailPath a b s))]) := by
      simp [GetArtifactDetails, Client.get, responseBodyCloser, h2, hs2]
    refine ⟨hB, ?_⟩
    rw [hB]
    simp

/-- C3 witness: with a 404 listing response (`wBad`) the listing fetcher
returns the status error without a decode event; with a 200 listing but a
404 detail response (`wDetailBad`) the listing succeeds and the detail
fetcher returns the status error without a decode event. -/
theorem non2xx_status_error_no_decode_witness :
    (GetArtifactsForBuild wBad (New "tok123") "app1" "bld1" =
      (.error (listingErrMsg 404 "app1" "bld1"),
        [.netCall reqListingOk, .bodyOpen reqListingOk,
          .bodyClose reqListingOk]) ∧
      Event.decodeListing ∉
        (GetArtifactsForBuild wBad (New "tok123") "app1" "bld1").2) ∧
    (GetArtifactDetails wDetailBad (New "tok123") "app1" "bld1" "slug3" =
      (.error (detailErrMsg 404 "app1" "bld1"),
        [.netCall reqDetailOk, .bodyOpen reqDetailOk,
          .bodyClose reqDetailOk]) ∧
      Event.decodeDetail ∉
        (GetArtifactDetails wDetailBad (New "tok123") "app1" "bld1"
          "slug3").2) ∧
    GetArtifactsForBuild wDetailBad (New "tok123") "app1" "bld1" =
      (.ok sampleListing,
        [.netCall reqListingOk, .bodyOpen reqListingOk, .decodeListing,
          .bodyClose reqListingOk]) := by
  refine ⟨?_, ?_, by decide⟩
  · exact (non2xx_status_error_no_decode wBad (New "tok123") "app1" "bld1"
      "slug3").1 ⟨404, ""⟩ (by decide) (by decide)
  · exact (non2xx_status_error_no_decode wDetailBad (New "tok123") "app1"
      "bld1" "slug3").2 ⟨404, ""⟩ (by decide) (by decide)

/-- C7: `DownloadArtifact` first fetches the artifact detail, propagating a
failure unchanged with no further request; on success it GETs the expiring
download URL with an empty header list (no Authorization) and returns the
open response body stream. -/
theorem download_flow (w : World) (c : Client) (a b s : String) :
    (∀ e tr, GetArtifactDetails w c a b s = (.error e, tr) →
      DownloadArtifact w c a b s = (.error e, tr)) ∧
    (∀ art tr, GetArtifactDetails w c a b s = (.ok art, tr) →
      (dlRequest art.data.expiringDownloadURL).headers = [] ∧
      (∀ e, w.net (dlRequest art.data.expiringDownloadURL) = .error e →
        DownloadArtifact w c a b s =
          (.error e,
            tr ++ [.netCall (dlRequest art.data.expiringDownloadURL)])) ∧
      (∀ resp, w.net (dlRequest art.data.expiringDownloadURL) = .ok resp →
        DownloadArtifact w c a b s =
          (.ok ⟨dlRequest art.data.expiringDownloadURL, resp.body⟩,
            tr ++ [.netCall (dlRequest art.data.expiringDownloadURL),
              .bodyOpen (dlRequest art.data.expiringDownloadURL)]))) := by
  constructor
  · intro e tr h
    simp [DownloadArtifact, h]
  · intro art tr h
    refine ⟨rfl, fun e he => ?_, fun resp hr => ?_⟩
    · simp [DownloadArtifact, h, he]
    · simp [DownloadArtifact, h, hr]

/-- C7 witness: under `wOk` the download returns the body of the GET on the
sample pre-signed URL (with no Authorization header); under `wBad` the
detail failure is propagated unchanged. -/
theorem download_flow_witness :
    DownloadArtifact wOk (New "tok123") "app1" "bld1" "slug3" =
      (.ok ⟨reqDlOk, "body"⟩,
        [.netCall reqDetailOk, .bodyOpen reqDetailOk, .decodeDetail,
          .bodyClose reqDetailOk] ++
          [.netCall reqDlOk, .bodyOpen reqDlOk]) ∧
    DownloadArtifact wBad (New "tok123") "app1" "bld1" "slug3" =
      (.error (detailErrMsg 404 "app1" "bld1"),
        [.netCall reqDetailOk, .bodyOpen reqDetailOk,
          .bodyClose reqDetailOk]) := by
  constructor
  · exact ((download_flow wOk (New "tok123") "app1" "bld1" "slug3").2
      sampleDetail
      [.netCall reqDetailOk, .bodyOpen reqDetailOk, .decodeDetail,
        .bodyClose reqDetailOk]
      (by decide)).2.2 ⟨200, "body"⟩ (by decide)
  · exact (download_flow wBad (New "tok123") "app1" "bld1" "slug3").1
      (detailErrMsg 404 "app1" "bld1")
      [.netCall reqDetailOk, .bodyOpen reqDetailOk, .bodyClose reqDetailOk]
      (by decide)

/-- C8: the process exit code is 0 on success and 1 on any failure, and on
failure the error message is printed to standard output. -/
theorem exit_code_and_error_print (w : World) :
    ((mainE w).1 = .ok () → mainRun w = (0, (mainE w).2)) ∧
    (∀ e, (mainE w).1 = .error e →
      (mainRun w).1 = 1 ∧
      Event.stdout ("Error: " ++ e ++ "\n") ∈ (mainRun w).2) := by
  rcases hm : mainE w with ⟨res, tr⟩
  rcases res with e | u
  · constructor
    · intro h
      simp at h
    · intro e2 he
      simp at he
      subst he
      simp [mainRun, hm]
  · constructor
    · intro h
      simp [mainRun, hm]
    · intro e2 he
      simp at he

/-- C8 witness: with an empty environment the run exits 1 and prints the
configuration error to stdout. -/
theorem exit_code_and_error_print_witness :
    (mainRun wEmptyEnv).1 = 1 ∧
    Event.stdout ("Error: " ++ errNoEnv "API_AUTH_TOKEN" ++ "\n") ∈
      (mainRun wEmptyEnv).2 :=
  (exit_code_and_error_print wEmptyEnv).2 (errNoEnv "API_AUTH_TOKEN")
    (by decide)

/-- Every line occurs inside the joined serialization. -/
theorem joinLines_infix (ls : List String) (x : String) (hx : x ∈ ls) :
    ∃ a b, joinLines ls = a ++ x ++ b := by
  induction ls with
  | nil => cases hx
  | cons y ys ih =>
    rcases ys with _ | ⟨z, zs⟩
    · have hxy : x = y := by simpa using hx
      subst hxy
      exact ⟨"", "", by simp [joinLines]⟩
    · rcases List.mem_cons.mp hx with hxy | hxs
      · subst hxy
        exact ⟨"", ",\n" ++ joinLines (z :: zs),
          by simp [joinLines, String.append_assoc]⟩
      · obtain ⟨a, b, hab⟩ := ih hxs
        exact ⟨y ++ ",\n" ++ a, b,
          by simp [joinLines, hab, String.append_assoc]⟩

/-- Membership through sorted insertion. -/
theorem mem_insertSorted (p q : String × String) (l : List (String × String)) :
    q ∈ insertSorted p l ↔ q = p ∨ q ∈ l := by
  induction l with
  | nil => simp [insertSorted]
  | cons r rs ih =>
    by_cases h : strLE p.1 r.1 <;> simp [insertSorted, h, ih] <;> tauto

/-- Sorting the map entries preserves membership. -/
theorem mem_sortPairs (m : List (String × String)) (q : String × String) :
    q ∈ sortPairs m ↔ q ∈ m := by
  induction m with
  | nil => simp [sortPairs]
  | cons p ps ih => simp [sortPairs, mem_insertSorted, ih]

/-- Every entry of the map appears, serialized, inside the output of
`marshalIndentMap`. -/
theorem marshalIndentMap_contains (m : List (String × String))
    (p : String × String) (hp : p ∈ m) :
    ∃ a b, marshalIndentMap m = a ++ renderPair p ++ b := by
  have hps : p ∈ sortPairs m := (mem_sortPairs m p).mpr hp
  rcases hs : sortPairs m with _ | ⟨q, qs⟩
  · rw [hs] at hps
    cases hps
  · rw [hs] at hps
    have hline : ("  " ++ renderPair p) ∈
        (q :: qs).map (fun r => "  " ++ renderPair r) :=
      List.mem_map.mpr ⟨p, hps, rfl⟩
    obtain ⟨a, b, hab⟩ := joinLines_infix _ _ hline
    refine ⟨"\x7b\n" ++ a ++ "  ", b ++ "\n\x7d", ?_⟩
    simp only [marshalIndentMap, hs]
    rw [hab]
    simp [String.append_assoc]

/-- C2: when the configured artifact name is absent from the title-to-slug
map, `mainE` fails with a message that contains
`unable to find artifact with name (<name>)` and the serialized enumeration
of every known title-to-slug pair; the trace stops after the listing call,
so no download is attempted. -/
theorem artifact_not_found_error (w : World)
    (art : Artifacts) (tr1 : List Event)
    (h1 : w.env "API_AUTH_TOKEN" ≠ "") (h2 : w.env "APP_SLUG" ≠ "")
    (h3 : w.env "WORKFLOW_SLUG_ID" ≠ "") (h4 : w.env "ARTIFACT_NAME" ≠ "")
    (hmk : w.mkdirErr (downloadDirOf w) = none)
    (hl : GetArtifactsForBuild w (New (w.env "API_AUTH_TOKEN"))
        (w.env "APP_SLUG") (w.env "WORKFLOW_SLUG_ID") = (.ok art, tr1))
    (hmiss : mapLookup (buildSlugMap art.data) (w.env "ARTIFACT_NAME") =
        none) :
    mainE w =
      (.error (notFoundMsg (w.env "ARTIFACT_NAME") (buildSlugMap art.data)),
        .mkdir (downloadDirOf w) :: tr1) ∧
    (∃ rest, notFoundMsg (w.env "ARTIFACT_NAME") (buildSlugMap art.data) =
      ("unable to find artifact with name (" ++ w.env "ARTIFACT_NAME" ++ ")")
        ++ rest) ∧
    (∀ p ∈ buildSlugMap art.data,
      ∃ a b, notFoundMsg (w.env "ARTIFACT_NAME") (buildSlugMap art.data) =
        a ++ renderPair p ++ b) := by
  refine ⟨?_, ?_, ?_⟩
  · simp [mainE, h1, h2, h3, h4, hmk, hl, hmiss]
  · refine ⟨", available artifacts:\n" ++
      marshalIndentMap (buildSlugMap art.data), ?_⟩
    have hsplit : ("), available artifacts:\n" : String) =
        ")" ++ ", available artifacts:\n" := by decide
    simp only [notFoundMsg, String.append_assoc]
    rw [(congrArg (fun s => s ++ marshalIndentMap (buildSlugMap art.data))
      hsplit).trans (String.append_assoc _ _ _)]
  · intro p hp
    obtain ⟨a, b, hab⟩ := marshalIndentMap_contains _ p hp
    refine ⟨"unable to find artifact with name (" ++ w.env "ARTIFACT_NAME" ++
      "), available artifacts:\n" ++ a, b, ?_⟩
    simp [notFoundMsg, hab, String.append_assoc]

/-- C2 witness: under `wMiss` (name `missing.ipa`, absent from the sample
listing) the run fails with the not-found message after the listing call. -/
theorem artifact_not_found_error_witness :
    mainE wMiss =
      (.error (notFoundMsg "missing.ipa" (buildSlugMap sampleListing.data)),
        .mkdir "out" :: [.netCall reqListingOk, .bodyOpen reqListingOk,
          .decodeListing, .bodyClose reqListingOk]) :=
  (artifact_not_found_error wMiss sampleListing
    [.netCall reqListingOk, .bodyOpen reqListingOk, .decodeListing,
      .bodyClose reqListingOk]
    (by decide) (by decide) (by decide) (by decide) (by decide) (by decide)
    (by decide)).1

/-- C5: on a successful run a file named after the configured artifact name
is created inside the download directory, the entire downloaded stream is
written to it, and stdout reports `done, [N byte] downloaded` with N the
stream length. -/
theorem success_writes_file_and_reports (w : World)
    (art : Artifacts) (tr1 : List Event) (reader : DownloadStream)
    (tr2 : List Event) (slug : String)
    (h1 : w.env "API_AUTH_TOKEN" ≠ "") (h2 : w.env "APP_SLUG" ≠ "")
    (h3 : w.env "WORKFLOW_SLUG_ID" ≠ "") (h4 : w.env "ARTIFACT_NAME" ≠ "")
    (hmk : w.mkdirErr (downloadDirOf w) = none)
    (hl : GetArtifactsForBuild w (New (w.env "API_AUTH_TOKEN"))
        (w.env "APP_SLUG") (w.env "WORKFLOW_SLUG_ID") = (.ok art, tr1))
    (hfind : mapLookup (buildSlugMap art.data) (w.env "ARTIFACT_NAME") =
        some slug)
    (hdl : DownloadArtifact w (New (w.env "API_AUTH_TOKEN"))
        (w.env "APP_SLUG") (w.env "WORKFLOW_SLUG_ID") slug =
        (.ok reader, tr2))
    (hcr : w.createErr (joinPath (downloadDirOf w) (w.env "ARTIFACT_NAME")) =
        none)
    (hcp : w.copyErr (joinPath (downloadDirOf w) (w.env "ARTIFACT_NAME"))
        reader.content = none) :
    mainE w =
      (.ok (),
        .mkdir (downloadDirOf w) ::
          (tr1 ++ tr2 ++
            [.fileCreate (joinPath (downloadDirOf w) (w.env "ARTIFACT_NAME")),
              .fileWrite (joinPath (downloadDirOf w) (w.env "ARTIFACT_NAME"))
                reader.content,
              .stdout (doneMsg reader.content.length)])) := by
  simp [mainE, h1, h2, h3, h4, hmk, hl, hfind, hdl, hcr, hcp]

/-- C5 witness: under `wOk` the run creates `out/app.apk`, writes the
4-byte stream `body` into it and reports `done, [4 byte] downloaded`. -/
theorem success_writes_file_and_reports_witness :
    mainE wOk =
      (.ok (),
        .mkdir "out" ::
          ([.netCall reqListingOk, .bodyOpen reqListingOk, .decodeListing,
              .bodyClose reqListingOk] ++
            [.netCall reqDetailOk, .bodyOpen reqDetailOk, .decodeDetail,
              .bodyClose reqDetailOk, .netCall reqDlOk, .bodyOpen reqDlOk] ++
            [.fileCreate "out/app.apk", .fileWrite "out/app.apk" "body",
              .stdout (doneMsg 4)])) :=
  success_writes_file_and_reports wOk sampleListing
    [.netCall reqListingOk, .bodyOpen reqListingOk, .decodeListing,
      .bodyClose reqListingOk]
    ⟨reqDlOk, "body"⟩
    [.netCall reqDetailOk, .bodyOpen reqDetailOk, .decodeDetail,
      .bodyClose reqDetailOk, .netCall reqDlOk, .bodyOpen reqDlOk]
    "slug3"
    (by decide) (by decide) (by decide) (by decide) (by decide) (by decide)
    (by decide) (by decide) (by decide) (by decide)

/-- C9 is refuted by the code: in a fully successful run the listing and
detail response bodies are closed, but the download response body returned
by `DownloadArtifact` is opened and never closed — `mainE` reads the stream
with `io.Copy` and drops it without calling Close. -/
theorem download_body_never_closed :
    (mainRun wOk).1 = 0 ∧
    Event.bodyOpen reqDlOk ∈ (mainRun wOk).2 ∧
    Event.bodyClose reqDlOk ∉ (mainRun wOk).2 ∧
    Event.bodyClose reqListingOk ∈ (mainRun wOk).2 ∧
    Event.bodyClose reqDetailOk ∈ (mainRun wOk).2 := by
  decide

end BitriseArtefactDownload
